import Mathlib

/-!
Verification development for the GreenTrip itinerary-synthesis pipeline
(`backend/services/itinerary_generator.py` and the provider modules it uses).

The Python source is shallowly embedded: money and durations are exact
rationals, dates are integer day ordinals, datetimes are rational seconds,
and physical quantities that flow through the trigonometric haversine model
(distances, CO2 emissions) are real numbers.  External network calls
(Amadeus, Climatiq, Google, OpenWeather, Dedalus) are modelled by explicit
parameters carrying the outcome of each call, so every pipeline function is
a total function of its inputs plus that environment.
-/

namespace Travel

/-! ## Rounding

Python's built-in `round(x, n)` rounds half to even (banker's rounding) at
`n` decimal digits.  `roundHalfEven` is the integer-valued rounding and
`roundTo n` the `n`-digit version, generic over `ℚ` (prices) and `ℝ`
(emissions). -/

def roundHalfEven {α : Type} [LinearOrderedField α] [FloorRing α] (x : α) : ℤ :=
  let f : ℤ := ⌊x⌋
  if x - f < 1/2 then f
  else if 1/2 < x - f then f + 1
  else if Even f then f else f + 1

def roundTo {α : Type} [LinearOrderedField α] [FloorRing α] (n : ℕ) (x : α) : α :=
  (roundHalfEven (x * 10 ^ n) : α) / 10 ^ n

theorem roundHalfEven_mono {α : Type} [LinearOrderedField α] [FloorRing α]
    {x y : α} (h : x ≤ y) : roundHalfEven x ≤ roundHalfEven y := by
  unfold roundHalfEven
  rcases lt_or_ge ⌊x⌋ ⌊y⌋ with hf | hf
  · -- different floors: the left value is at most ⌊x⌋ + 1 ≤ ⌊y⌋
    have hxle : (if x - ⌊x⌋ < 1/2 then (⌊x⌋:ℤ) else if 1/2 < x - ⌊x⌋ then ⌊x⌋ + 1
        else if Even ⌊x⌋ then ⌊x⌋ else ⌊x⌋ + 1) ≤ ⌊x⌋ + 1 := by
      split <;> [omega; skip]
      split <;> [omega; skip]
      split <;> omega
    have hyge : (⌊y⌋:ℤ) ≤ (if y - ⌊y⌋ < 1/2 then (⌊y⌋:ℤ) else if 1/2 < y - ⌊y⌋ then ⌊y⌋ + 1
        else if Even ⌊y⌋ then ⌊y⌋ else ⌊y⌋ + 1) := by
      split <;> [omega; skip]
      split <;> [omega; skip]
      split <;> omega
    simp only at hxle hyge ⊢
    omega
  · have hfe : ⌊y⌋ ≤ ⌊x⌋ := hf
    have hfx : ⌊x⌋ ≤ ⌊y⌋ := Int.floor_le_floor h
    have heq : ⌊x⌋ = ⌊y⌋ := le_antisymm hfx hfe
    simp only [← heq]
    have hr : x - (⌊x⌋:α) ≤ y - ⌊x⌋ := by linarith
    split
    · split
      · omega
      · split <;> omega
    · -- x - ⌊x⌋ ≥ 1/2
      rename_i h1
      push_neg at h1
      split
      · rename_i h2
        -- 1/2 < x - ⌊x⌋ ≤ y - ⌊x⌋, so the right side also takes a +1 branch
        have hyn : ¬ (y - (⌊x⌋:α) < 1/2) := by push_neg; linarith
        rw [if_neg hyn]
        have h2y : (1:α)/2 < y - ⌊x⌋ := by linarith
        rw [if_pos h2y]
      · rename_i h2
        push_neg at h2
        have hx2 : x - (⌊x⌋:α) = 1/2 := le_antisymm h2 h1
        have hyn : ¬ (y - (⌊x⌋:α) < 1/2) := by push_neg; linarith
        rw [if_neg hyn]
        -- splitting on the parity rewrites both sides at once
        split <;> split <;> omega

theorem roundTo_mono {α : Type} [LinearOrderedField α] [FloorRing α]
    (n : ℕ) {x y : α} (h : x ≤ y) : roundTo n x ≤ roundTo n y := by
  unfold roundTo
  have hp : (0:α) < 10 ^ n := by positivity
  have := roundHalfEven_mono (α := α) (mul_le_mul_of_nonneg_right h hp.le)
  exact div_le_div_of_nonneg_right (by exact_mod_cast this) hp.le

/-! ## Flight data model (`amadeus_flights.py`)

Datetimes are rational seconds since an arbitrary epoch; airport/cabin
tables carry exact rational coordinates and multipliers. -/

/-- Embedding of `schemas.FlightSegment`. -/
structure FlightSegment where
  carrier : String
  flight_number : String
  origin : String
  destination : String
  departure : ℚ
  arrival : ℚ
  deriving DecidableEq

/-- Embedding of `schemas.FlightOption`; `emissions_kg` is real-valued
because the local estimator goes through the haversine formula. -/
structure FlightOption where
  id : String
  price : ℚ
  currency : String
  booking_url : Option String
  segments : List FlightSegment
  emissions_kg : Option ℝ
  cabin : String

/-- Table `AIRPORT_COORDS` of `amadeus_flights.py` (lat, lon in degrees). -/
def AIRPORT_COORDS : List (String × ℚ × ℚ) :=
  [("ATL", 33.6407, -84.4277), ("AUS", 30.1975, -97.6664), ("BOS", 42.3656, -71.0096),
   ("CDG", 49.0097, 2.5479), ("CLT", 35.2144, -80.9473), ("DAL", 32.8471, -96.8518),
   ("DEN", 39.8561, -104.6737), ("DFW", 32.8998, -97.0403), ("DUB", 53.4213, -6.2701),
   ("DXB", 25.2532, 55.3657), ("EWR", 40.6895, -74.1745), ("FCO", 41.8003, 12.2389),
   ("FRA", 50.0379, 8.5622), ("HKG", 22.3080, 113.9185), ("HNL", 21.3187, -157.9224),
   ("IAH", 29.9902, -95.3368), ("ICN", 37.4602, 126.4407), ("IST", 41.2753, 28.7519),
   ("JFK", 40.6413, -73.7781), ("LAS", 36.0840, -115.1537), ("LAX", 33.9416, -118.4085),
   ("LHR", 51.4700, -0.4543), ("MAD", 40.4893, -3.5676), ("MIA", 25.7959, -80.2870),
   ("MSP", 44.8848, -93.2223), ("NRT", 35.7767, 140.3189), ("ORD", 41.9742, -87.9073),
   ("ORY", 48.7262, 2.3652), ("PEK", 40.0801, 116.5846), ("PHL", 39.8729, -75.2437),
   ("PHX", 33.4343, -112.0116), ("SAN", 32.7338, -117.1933), ("SEA", 47.4502, -122.3088),
   ("SFO", 37.6213, -122.3790), ("SIN", 1.3644, 103.9915), ("SYD", -33.9399, 151.1753),
   ("YYZ", 43.6777, -79.6248)]

/-- Table `CABIN_VARIANTS`: cabin name, price multiplier, emission
multiplier, in the source's insertion order. -/
def CABIN_VARIANTS : List (String × ℚ × ℚ) :=
  [("economy", 1.0, 1.0), ("premium economy", 1.25, 1.15),
   ("business", 1.8, 1.5), ("first", 2.6, 2.0)]

/-- `str.lower()`, modelled on the character list (the built-in
`String.toLower` is irreducible to the kernel). -/
def strToLower (s : String) : String := ⟨s.data.map Char.toLower⟩

/-- `str.upper()`. -/
def strToUpper (s : String) : String := ⟨s.data.map Char.toUpper⟩

/-- `str.strip()`. -/
def strTrim (s : String) : String :=
  ⟨((s.data.dropWhile Char.isWhitespace).reverse.dropWhile Char.isWhitespace).reverse⟩

/-- `_get_airport_coords`: the table lookup on the upper-cased code. -/
def getAirportCoords (code : String) : Option (ℚ × ℚ) :=
  (AIRPORT_COORDS.lookup (strToUpper code))

/-- Degrees to radians, as `math.radians`. -/
noncomputable def radians (deg : ℝ) : ℝ := deg * Real.pi / 180

/-- Model of `math.atan2` (signed zeros ignored). -/
noncomputable def atan2 (y x : ℝ) : ℝ :=
  if 0 < x then Real.arctan (y / x)
  else if x < 0 ∧ 0 ≤ y then Real.arctan (y / x) + Real.pi
  else if x < 0 ∧ y < 0 then Real.arctan (y / x) - Real.pi
  else if 0 < y then Real.pi / 2
  else if y < 0 then -(Real.pi / 2)
  else 0

/-- `_haversine_km`: great-circle distance between two points in km. -/
noncomputable def haversineKm (lat1 lon1 lat2 lon2 : ℝ) : ℝ :=
  let r : ℝ := 6371
  let phi1 := radians lat1
  let phi2 := radians lat2
  let dPhi := radians (lat2 - lat1)
  let dLambda := radians (lon2 - lon1)
  let a := Real.sin (dPhi / 2) ^ 2 +
    Real.cos phi1 * Real.cos phi2 * Real.sin (dLambda / 2) ^ 2
  let c := 2 * atan2 (Real.sqrt a) (Real.sqrt (1 - a))
  r * c

/-- `_segment_distance_km`: `none` when either endpoint's coordinates are
not in `AIRPORT_COORDS`. -/
noncomputable def segmentDistanceKm (seg : FlightSegment) : Option ℝ :=
  match getAirportCoords seg.origin, getAirportCoords seg.destination with
  | some o, some d => some (haversineKm o.1 o.2 d.1 d.2)
  | _, _ => none

/-- Sum of the known per-segment distances (the `total` accumulated by the
loop of `_total_distance_km`). -/
noncomputable def knownDistanceSum (segments : List FlightSegment) : ℝ :=
  (segments.map (fun seg => (segmentDistanceKm seg).getD 0)).sum

/-- Whether some segment's distance is unknown (the `missing` flag of
`_total_distance_km`). -/
def anyCoordsMissing (segments : List FlightSegment) : Prop :=
  ∃ seg ∈ segments, getAirportCoords seg.origin = none ∨
    getAirportCoords seg.destination = none

instance (segments : List FlightSegment) : Decidable (anyCoordsMissing segments) := by
  unfold anyCoordsMissing; infer_instance

/-- Total flight duration in hours (`duration_hours` in
`_total_distance_km`, computed from `total_seconds`). -/
def durationHours (segments : List FlightSegment) : ℚ :=
  (segments.map (fun seg => seg.arrival - seg.departure)).sum / 3600

/-- `_total_distance_km`: haversine sum over known segments; when that sum
is zero and some coordinates are missing, fall back to duration × 800 km/h
floored at 500 km; 1500 km when everything else is unusable. -/
noncomputable def totalDistanceKm (segments : List FlightSegment) : ℝ :=
  let total := knownDistanceSum segments
  let total :=
    if total = 0 ∧ anyCoordsMissing segments then
      if 0 < durationHours segments then
        max 500 ((durationHours segments : ℝ) * 800)
      else total
    else total
  if total = 0 then 1500 else total

/-- `_base_emission_factor`: kg CO2 per passenger-km by distance band,
times the 1.9 radiative-forcing index. -/
noncomputable def baseEmissionFactor (distance_km : ℝ) : ℝ :=
  (if distance_km ≤ 1500 then 0.158
   else if distance_km ≤ 3500 then 0.111
   else 0.102) * 1.9

/-- Emission multiplier of `CABIN_VARIANTS.get(cabin.lower(), ...)`. -/
def cabinEmissionMultiplier (cabin : String) : ℚ :=
  match CABIN_VARIANTS.lookup (strToLower cabin) with
  | some m => m.2
  | none => 1.0

/-- `_estimate_emissions`: distance × band factor × cabin multiplier,
rounded to one decimal digit. -/
noncomputable def estimateEmissions (distance_km : ℝ) (cabin : String) : ℝ :=
  roundTo 1 (distance_km * baseEmissionFactor distance_km * (cabinEmissionMultiplier cabin : ℝ))

/-! ## Airport code resolver (`airport_code_resolver.py`)

The two Amadeus lookups (`_lookup_airport_by_keyword`,
`_lookup_airport_by_coordinates`) are network calls; their outcomes are
passed in explicitly (`none` both when credentials are missing and when the
lookup fails, exactly the situations in which the source returns `None`). -/

/-- Static table `CITY_TO_AIRPORT` (duplicate `dublin` keys in the source
bind the same value, so first-match lookup is equivalent). -/
def CITY_TO_AIRPORT : List (String × String) :=
  [("paris", "CDG"), ("paris, france", "CDG"), ("london", "LHR"), ("london, uk", "LHR"),
   ("london, england", "LHR"), ("new york", "JFK"), ("new york city", "JFK"),
   ("new york, ny", "JFK"), ("new york, usa", "JFK"), ("los angeles", "LAX"),
   ("los angeles, ca", "LAX"), ("los angeles, california", "LAX"), ("san francisco", "SFO"),
   ("san francisco, ca", "SFO"), ("chicago", "ORD"), ("chicago, il", "ORD"),
   ("chicago, illinois", "ORD"), ("miami", "MIA"), ("miami, fl", "MIA"),
   ("miami, florida", "MIA"), ("boston", "BOS"), ("boston, ma", "BOS"),
   ("boston, massachusetts", "BOS"), ("seattle", "SEA"), ("seattle, wa", "SEA"),
   ("seattle, washington", "SEA"), ("atlanta", "ATL"), ("atlanta, ga", "ATL"),
   ("atlanta, georgia", "ATL"), ("dallas", "DFW"), ("dallas, tx", "DFW"),
   ("dallas, texas", "DFW"), ("houston", "IAH"), ("houston, tx", "IAH"),
   ("houston, texas", "IAH"), ("denver", "DEN"), ("denver, co", "DEN"),
   ("denver, colorado", "DEN"), ("philadelphia", "PHL"), ("philadelphia, pa", "PHL"),
   ("philadelphia, pennsylvania", "PHL"), ("phoenix", "PHX"), ("phoenix, az", "PHX"),
   ("phoenix, arizona", "PHX"), ("las vegas", "LAS"), ("las vegas, nv", "LAS"),
   ("las vegas, nevada", "LAS"), ("detroit", "DTW"), ("detroit, mi", "DTW"),
   ("detroit, michigan", "DTW"), ("minneapolis", "MSP"), ("minneapolis, mn", "MSP"),
   ("minneapolis, minnesota", "MSP"), ("portland", "PDX"), ("portland, or", "PDX"),
   ("portland, oregon", "PDX"), ("washington", "DCA"), ("washington dc", "DCA"),
   ("washington, dc", "DCA"), ("baltimore", "BWI"), ("baltimore, md", "BWI"),
   ("baltimore, maryland", "BWI"), ("tokyo", "NRT"), ("tokyo, japan", "NRT"),
   ("beijing", "PEK"), ("beijing, china", "PEK"), ("shanghai", "PVG"),
   ("shanghai, china", "PVG"), ("mumbai", "BOM"), ("mumbai, india", "BOM"),
   ("dubai", "DXB"), ("dubai, uae", "DXB"), ("sydney", "SYD"), ("sydney, australia", "SYD"),
   ("rome", "FCO"), ("rome, italy", "FCO"), ("barcelona", "BCN"), ("barcelona, spain", "BCN"),
   ("amsterdam", "AMS"), ("amsterdam, netherlands", "AMS"), ("berlin", "BER"),
   ("berlin, germany", "BER"), ("madrid", "MAD"), ("madrid, spain", "MAD"),
   ("singapore", "SIN"), ("singapore, singapore", "SIN"), ("hong kong", "HKG"),
   ("hong kong, china", "HKG"), ("bangkok", "BKK"), ("bangkok, thailand", "BKK"),
   ("seoul", "ICN"), ("seoul, south korea", "ICN"), ("istanbul", "IST"),
   ("istanbul, turkey", "IST"), ("moscow", "SVO"), ("moscow, russia", "SVO"),
   ("cairo", "CAI"), ("cairo, egypt", "CAI"), ("dublin", "DUB"), ("dublin, ireland", "DUB"),
   ("vienna", "VIE"), ("vienna, austria", "VIE"), ("prague", "PRG"),
   ("prague, czech republic", "PRG"), ("lisbon", "LIS"), ("lisbon, portugal", "LIS"),
   ("athens", "ATH"), ("athens, greece", "ATH"), ("warsaw", "WAW"), ("warsaw, poland", "WAW"),
   ("stockholm", "ARN"), ("stockholm, sweden", "ARN"), ("copenhagen", "CPH"),
   ("copenhagen, denmark", "CPH"), ("oslo", "OSL"), ("oslo, norway", "OSL"),
   ("helsinki", "HEL"), ("helsinki, finland", "HEL"), ("brussels", "BRU"),
   ("brussels, belgium", "BRU"), ("zurich", "ZRH"), ("zurich, switzerland", "ZRH"),
   ("geneva", "GVA"), ("geneva, switzerland", "GVA"), ("frankfurt", "FRA"),
   ("frankfurt, germany", "FRA"), ("munich", "MUC"), ("munich, germany", "MUC"),
   ("milan", "MXP"), ("milan, italy", "MXP"), ("venice", "VCE"), ("venice, italy", "VCE"),
   ("florence", "FLR"), ("florence, italy", "FLR"), ("naples", "NAP"),
   ("naples, italy", "NAP"), ("porto", "OPO"), ("porto, portugal", "OPO"),
   ("edinburgh", "EDI"), ("edinburgh, scotland", "EDI"), ("glasgow", "GLA"),
   ("glasgow, scotland", "GLA"), ("manchester", "MAN"), ("manchester, uk", "MAN"),
   ("birmingham", "BHX"), ("birmingham, uk", "BHX"), ("bristol", "BRS"),
   ("bristol, uk", "BRS"), ("newcastle", "NCL"), ("newcastle, uk", "NCL"),
   ("liverpool", "LPL"), ("liverpool, uk", "LPL"), ("leeds", "LBA"), ("leeds, uk", "LBA"),
   ("nottingham", "EMA"), ("nottingham, uk", "EMA"), ("sheffield", "DSA"),
   ("sheffield, uk", "DSA"), ("cardiff", "CWL"), ("cardiff, wales", "CWL"),
   ("belfast", "BFS"), ("belfast, northern ireland", "BFS"), ("cork", "ORK"),
   ("cork, ireland", "ORK"), ("shannon", "SNN"), ("shannon, ireland", "SNN"),
   ("reykjavik", "KEF"), ("reykjavik, iceland", "KEF"), ("tallinn", "TLL"),
   ("tallinn, estonia", "TLL"), ("riga", "RIX"), ("riga, latvia", "RIX"),
   ("vilnius", "VNO"), ("vilnius, lithuania", "VNO"), ("bucharest", "OTP"),
   ("bucharest, romania", "OTP"), ("budapest", "BUD"), ("budapest, hungary", "BUD"),
   ("zagreb", "ZAG"), ("zagreb, croatia", "ZAG"), ("ljubljana", "LJU"),
   ("ljubljana, slovenia", "LJU"), ("bratislava", "BTS"), ("bratislava, slovakia", "BTS"),
   ("sofia", "SOF"), ("sofia, bulgaria", "SOF"), ("belgrade", "BEG"),
   ("belgrade, serbia", "BEG"), ("sarajevo", "SJJ"), ("sarajevo, bosnia", "SJJ"),
   ("skopje", "SKP"), ("skopje, macedonia", "SKP"), ("tirana", "TIA"),
   ("tirana, albania", "TIA"), ("podgorica", "TGD"), ("podgorica, montenegro", "TGD"),
   ("nicosia", "LCA"), ("nicosia, cyprus", "LCA"), ("valletta", "MLA"),
   ("valletta, malta", "MLA"), ("luxembourg", "LUX"), ("luxembourg, luxembourg", "LUX"),
   ("monaco", "NCE"), ("monaco, monaco", "NCE"), ("andorra", "LEU"),
   ("andorra, andorra", "LEU"), ("san marino", "RMI"), ("san marino, san marino", "RMI"),
   ("vatican", "FCO"), ("vatican city", "FCO"), ("liechtenstein", "ZRH"),
   ("liechtenstein, liechtenstein", "ZRH")]

/-- Strip a trailing ", region" qualifier: `city_lower.split(",")[0].strip()`. -/
def cityOnly (cityLower : String) : String :=
  strTrim ⟨cityLower.data.takeWhile (fun c => c ≠ ',')⟩

/-- `resolve_airport_code`: static table (direct, then qualifier-stripped),
then the keyword lookup, then the coordinate lookup when coordinates were
supplied.  `keywordResult` and `coordResult` carry the outcomes of the two
network lookups. -/
def resolveAirportCode (keywordResult : Option String) (coordResult : Option String)
    (hasCoordinates : Bool) (cityName : String) : Option String :=
  let cityLower := strTrim (strToLower cityName)
  match CITY_TO_AIRPORT.lookup cityLower with
  | some code => some code
  | none =>
    match CITY_TO_AIRPORT.lookup (cityOnly cityLower) with
    | some code => some code
    | none =>
      match keywordResult with
      | some code => some code
      | none => if hasCoordinates then coordResult else none

/-! ## Flight search (`fetch_flights_amadeus` and `_fallback_flights`)

The `uuid.uuid4()` identifiers are external randomness and are modelled as
the empty string; no claim depends on them. -/

/-- Per-flight fields the source extracts from one Amadeus offer before
building a `FlightOption` (lines 211-237): parsed segments, total price and
the first traveler's cabin. -/
structure AmadeusOffer where
  segments : List FlightSegment
  price : ℚ
  cabin : Option String
  booking_url : String

/-- Outcome of the Amadeus flight-offers interaction, as seen by
`fetch_flights_amadeus`: missing credentials, failed token fetch, a raised
error, or a (possibly empty) list of parsed offers. -/
inductive FlightsApiOutcome where
  | noCredentials
  | noToken
  | apiError
  | apiData (offers : List AmadeusOffer)

/-- Synthetic fallback generator `_fallback_flights`: five base offers, one
per departure time/duration/price, expanded across the four cabin variants
and finally sorted by ascending price.  `keywordOrigin`/`keywordDest` carry
the resolver's network-lookup outcomes, and `departureDay`/`returnDay` the
parsed dates as day ordinals (the `fromisoformat` results). -/
noncomputable def fallbackFlightsPre (keywordOrigin keywordDest : Option String)
    (origin destination : String) (departureDay : ℤ) (returnDay : Option ℤ) :
    List FlightOption :=
  let originCode := strToUpper ((resolveAirportCode keywordOrigin none false origin).getD origin)
  let destinationCode :=
    strToUpper ((resolveAirportCode keywordDest none false destination).getD destination)
  let carriers := ["AA", "DL", "UA", "BA", "AF"]
  let basePrices : List ℚ := [399.0, 429.0, 475.0, 515.0, 559.0]
  -- departure times 06:30, 09:15, 12:45, 15:20, 20:10 as seconds of the day
  let departTimes : List ℚ := [23400, 33300, 45900, 55200, 72600]
  let durationsMinutes : List ℚ := [380, 420, 455, 495, 540]
  let options :=
    (List.range basePrices.length).flatMap (fun i =>
      let depDt : ℚ := departureDay * 86400 + departTimes.getD i 0
      let arrDt : ℚ := depDt + durationsMinutes.getD i 0 * 60
      let outSeg : FlightSegment :=
        { carrier := carriers.getD (i % carriers.length) ""
          flight_number := toString (1000 + i)
          origin := originCode
          destination := destinationCode
          departure := depDt
          arrival := arrDt }
      let segments :=
        match returnDay with
        | some rd =>
          -- return departures 07:10, 11:00, 13:35, 17:25, 21:15
          let retDepTimes : List ℚ := [25800, 39600, 48900, 62700, 76500]
          let retDurations : List ℚ := [395, 430, 465, 505, 545]
          let rdep : ℚ := rd * 86400 + retDepTimes.getD i 0
          let rarr : ℚ := rdep + retDurations.getD i 0 * 60
          [outSeg,
           { carrier := carriers.getD ((i + 1) % carriers.length) ""
             flight_number := toString (2000 + i)
             origin := destinationCode
             destination := originCode
             departure := rdep
             arrival := rarr }]
        | none => [outSeg]
      let totalDistance := totalDistanceKm segments
      let basePrice := basePrices.getD i 0
      CABIN_VARIANTS.map (fun cv =>
        ({ id := ""
           price := roundTo 2 (basePrice * cv.2.1)
           currency := "USD"
           booking_url := none
           segments := segments
           emissions_kg := some (estimateEmissions totalDistance cv.1)
           cabin := cv.1 } : FlightOption)))
  options

/-- `_fallback_flights` returns the generated options sorted by ascending
price (`options.sort(key=lambda opt: opt.price)`). -/
noncomputable def fallbackFlights (keywordOrigin keywordDest : Option String)
    (origin destination : String) (departureDay : ℤ) (returnDay : Option ℤ) :
    List FlightOption :=
  (fallbackFlightsPre keywordOrigin keywordDest origin destination departureDay
    returnDay).mergeSort (fun a b => decide (a.price ≤ b.price))

/-- `fetch_flights_amadeus`: on missing credentials, a failed token fetch,
a raised API error, or an empty parsed offer list, return the synthetic
fallback; otherwise build a `FlightOption` per offer, with the cabin label
lower-cased (default `"economy"`) and emissions always populated by the
local distance/band/cabin model. -/
noncomputable def fetchFlightsAmadeus (outcome : FlightsApiOutcome)
    (keywordOrigin keywordDest : Option String) (origin destination : String)
    (departureDay : ℤ) (returnDay : Option ℤ) : List FlightOption :=
  match outcome with
  | .noCredentials => fallbackFlights keywordOrigin keywordDest origin destination departureDay returnDay
  | .noToken => fallbackFlights keywordOrigin keywordDest origin destination departureDay returnDay
  | .apiError => fallbackFlights keywordOrigin keywordDest origin destination departureDay returnDay
  | .apiData offers =>
    let flights := (offers.take 5).map (fun (offer : AmadeusOffer) =>
      let cabinLabel := (offer.cabin.map strToLower).getD "economy"
      let distanceKm := totalDistanceKm offer.segments
      ({ id := ""
         price := offer.price
         currency := "USD"
         booking_url := some offer.booking_url
         segments := offer.segments
         emissions_kg := some (estimateEmissions distanceKm cabinLabel)
         cabin := cabinLabel } : FlightOption))
    if flights.isEmpty then
      fallbackFlights keywordOrigin keywordDest origin destination departureDay returnDay
    else flights

/-! ## Climatiq emission estimates (`climatiq_service.py`)

The two network estimators return `None` without a key, on any HTTP error
and on a falsy `co2e`, so their outcomes enter the pipeline as
`Option ℝ` parameters.  The local fallbacks are pure. -/

/-- `estimate_flight_emissions_fallback`: flat 200 kg per passenger. -/
def estimateFlightEmissionsFallback (passengers : ℚ) : ℚ := 200.0 * passengers

/-- `estimate_hotel_emissions_fallback`: 15 kg per night. -/
def estimateHotelEmissionsFallback (nights : ℚ) : ℚ := 15.0 * nights

/-! ## Dedalus response parsing (`dedalus_client.py`)

`call_dedalus` feeds the model's final output string to `json.loads`; on a
parse failure it applies `re.search(r'\x7b.*\x7d', text, re.DOTALL)` — a
greedy match running from the first opening brace to the last closing brace
— and parses that span; any remaining failure raises, which the caller
turns into the deterministic fallback itinerary.  `Json`/`jsonParse` model
the value grammar accepted by `json.loads` (strict mode). -/

inductive Json where
  | null
  | bool (b : Bool)
  | num (q : ℚ)
  | str (s : String)
  | arr (elems : List Json)
  | obj (fields : List (String × Json))

/-- Whitespace accepted between JSON tokens. -/
def isJsonWs (c : Char) : Bool :=
  c = ' ' || c = '\t' || c = '\n' || c = '\x0D'

def skipWs (cs : List Char) : List Char := cs.dropWhile isJsonWs

def hexVal (c : Char) : Option ℕ :=
  if '0' ≤ c ∧ c ≤ '9' then some (c.toNat - 48)
  else if 'a' ≤ c ∧ c ≤ 'f' then some (c.toNat - 87)
  else if 'A' ≤ c ∧ c ≤ 'F' then some (c.toNat - 55)
  else none

/-- Body of a JSON string after the opening quote, with the standard escape
sequences (astral `\u` surrogate pairing is not modelled). -/
def parseStringBody : ℕ → List Char → Option (String × List Char)
  | 0, _ => none
  | _ + 1, [] => none
  | fuel + 1, c :: rest =>
    if c = '"' then some ("", rest)
    else if c = '\\' then
      match rest with
      | [] => none
      | e :: rest2 =>
        let dec : Option (Char × List Char) :=
          if e = '"' then some ('"', rest2)
          else if e = '\\' then some ('\\', rest2)
          else if e = '/' then some ('/', rest2)
          else if e = 'b' then some ('\x08', rest2)
          else if e = 'f' then some ('\x0C', rest2)
          else if e = 'n' then some ('\n', rest2)
          else if e = 'r' then some ('\x0D', rest2)
          else if e = 't' then some ('\t', rest2)
          else if e = 'u' then
            match rest2 with
            | a :: b :: c2 :: d :: rest3 =>
              match hexVal a, hexVal b, hexVal c2, hexVal d with
              | some ha, some hb, some hc, some hd =>
                some (Char.ofNat (ha * 4096 + hb * 256 + hc * 16 + hd), rest3)
              | _, _, _, _ => none
            | _ => none
          else none
        match dec with
        | some (ch, rest3) =>
          match parseStringBody fuel rest3 with
          | some (s, r) => some (String.singleton ch ++ s, r)
          | none => none
        | none => none
    else if c.toNat < 32 then none
    else
      match parseStringBody fuel rest with
      | some (s, r) => some (String.singleton c ++ s, r)
      | none => none

def digitsToNat (ds : List Char) : ℕ :=
  ds.foldl (fun a c => a * 10 + (c.toNat - 48)) 0

/-- Optional fraction part `.ddd`. -/
def parseFrac (cs : List Char) : Option (ℚ × List Char) :=
  match cs with
  | '.' :: r =>
    let fd := r.takeWhile Char.isDigit
    if fd.isEmpty then none
    else some ((digitsToNat fd : ℚ) / 10 ^ fd.length, r.dropWhile Char.isDigit)
  | _ => some (0, cs)

/-- Optional exponent part `e±ddd`. -/
def parseExp (cs : List Char) : Option (ℤ × List Char) :=
  match cs with
  | c :: r =>
    if c = 'e' || c = 'E' then
      let sr : ℤ × List Char :=
        match r with
        | '+' :: rr => (1, rr)
        | '-' :: rr => (-1, rr)
        | _ => (1, r)
      let ed := sr.2.takeWhile Char.isDigit
      if ed.isEmpty then none
      else some (sr.1 * digitsToNat ed, sr.2.dropWhile Char.isDigit)
    else some (0, cs)
  | [] => some (0, [])

/-- JSON number (leading zeros rejected, as in `json.loads`). -/
def parseNumber (cs : List Char) : Option (ℚ × List Char) :=
  let sgn : Bool × List Char :=
    match cs with
    | '-' :: r => (true, r)
    | _ => (false, cs)
  let intDigits := sgn.2.takeWhile Char.isDigit
  let rest1 := sgn.2.dropWhile Char.isDigit
  if intDigits.isEmpty then none
  else if intDigits.length > 1 && intDigits.headD '0' = '0' then none
  else
    match parseFrac rest1 with
    | none => none
    | some (f, r2) =>
      match parseExp r2 with
      | none => none
      | some (e, r3) =>
        let m : ℚ := (digitsToNat intDigits : ℚ) + f
        let v : ℚ := if 0 ≤ e then m * 10 ^ e.toNat else m / 10 ^ (-e).toNat
        some (if sgn.1 then -v else v, r3)

mutual

/-- One JSON value, fuelled by the remaining input length. -/
def parseValue : ℕ → List Char → Option (Json × List Char)
  | 0, _ => none
  | fuel + 1, cs =>
    match skipWs cs with
    | [] => none
    | c :: rest =>
      if c = '"' then
        match parseStringBody (rest.length + 1) rest with
        | some (s, r) => some (.str s, r)
        | none => none
      else if c = '\x7b' then
        match skipWs rest with
        | '\x7d' :: r2 => some (.obj [], r2)
        | rest2 =>
          match parseMembers fuel rest2 with
          | some (ms, r) => some (.obj ms, r)
          | none => none
      else if c = '[' then
        match skipWs rest with
        | ']' :: r2 => some (.arr [], r2)
        | rest2 =>
          match parseElements fuel rest2 with
          | some (es, r) => some (.arr es, r)
          | none => none
      else if c = 't' then
        match rest with
        | 'r' :: 'u' :: 'e' :: r => some (.bool true, r)
        | _ => none
      else if c = 'f' then
        match rest with
        | 'a' :: 'l' :: 's' :: 'e' :: r => some (.bool false, r)
        | _ => none
      else if c = 'n' then
        match rest with
        | 'u' :: 'l' :: 'l' :: r => some (.null, r)
        | _ => none
      else
        match parseNumber (c :: rest) with
        | some (q, r) => some (.num q, r)
        | none => none

/-- Members of an object after the opening brace (non-empty case). -/
def parseMembers : ℕ → List Char → Option (List (String × Json) × List Char)
  | 0, _ => none
  | fuel + 1, cs =>
    match skipWs cs with
    | '"' :: rest =>
      match parseStringBody (rest.length + 1) rest with
      | some (k, r1) =>
        match skipWs r1 with
        | ':' :: r2 =>
          match parseValue fuel r2 with
          | some (v, r3) =>
            match skipWs r3 with
            | ',' :: r4 =>
              match parseMembers fuel r4 with
              | some (ms, r5) => some ((k, v) :: ms, r5)
              | none => none
            | '\x7d' :: r4 => some ([(k, v)], r4)
            | _ => none
          | none => none
        | _ => none
      | none => none
    | _ => none

/-- Elements of an array after the opening bracket (non-empty case). -/
def parseElements : ℕ → List Char → Option (List Json × List Char)
  | 0, _ => none
  | fuel + 1, cs =>
    match parseValue fuel cs with
    | some (v, r1) =>
      match skipWs r1 with
      | ',' :: r2 =>
        match parseElements fuel r2 with
        | some (es, r3) => some (v :: es, r3)
        | none => none
      | ']' :: r2 => some ([v], r2)
      | _ => none
    | none => none

end

/-- `json.loads`: a single JSON value with surrounding whitespace. -/
def jsonParse (s : String) : Option Json :=
  match parseValue (s.length + 1) s.data with
  | some (j, rest) => if skipWs rest = [] then some j else none
  | none => none

/-- The span matched by `re.search(r'\x7b.*\x7d', s, re.DOTALL)`: from the
first opening brace to the last closing brace, when the latter comes
later. -/
def extractBracedSpan (s : String) : Option String :=
  let cs := s.data
  match cs.findIdx? (fun c => c = '\x7b'), cs.reverse.findIdx? (fun c => c = '\x7d') with
  | some i, some jr =>
    let j := cs.length - 1 - jr
    if i < j then some (String.mk ((cs.drop i).take (j + 1 - i))) else none
  | _, _ => none

/-- Response validation of `call_dedalus` on a string `final_output`:
direct parse, then parse of the greedy braced span; `none` is the error
case that the caller converts into the deterministic fallback. -/
def callDedalusParse (s : String) : Option Json :=
  match jsonParse s with
  | some j => some j
  | none =>
    match extractBracedSpan s with
    | some t => jsonParse t
    | none => none

/-! ## Itinerary generation (`itinerary_generator.py`)

Dates are integer day ordinals (so `end - start` is the `timedelta` day
count and `isoformat` is irrelevant).  Each network interaction of the
pipeline is an explicit field of `PipelineEnv`.  Python truthiness on
optional values (`x or default`) is modelled by the `strOr`/`intOr`
helpers and by the zero tests in the enrichment steps. -/

/-- Python `x or default` for an optional string (empty string is falsy). -/
def strOr (x : Option String) (default : String) : String :=
  match x with
  | some s => if s = "" then default else s
  | none => default

/-- Python `x or default` for an optional integer (zero is falsy). -/
def intOr (x : Option ℤ) (default : ℤ) : ℤ :=
  match x with
  | some n => if n = 0 then default else n
  | none => default

/-- Embedding of `schemas.ItineraryGenerationRequest`. -/
structure ItineraryGenerationRequest where
  destination : String
  origin : Option String
  start_date : Option ℤ
  end_date : Option ℤ
  num_days : Option ℤ
  budget : ℚ
  preferences : List String
  likes : List String
  dislikes : List String
  dietary_restrictions : List String
  mode : String

structure WeatherForecast where
  date : ℤ
  summary : String
  temperature_high_c : ℚ
  temperature_low_c : ℚ
  precipitation_probability : ℚ

structure DaypartWeather where
  summary : String
  temperature_c : ℚ
  precipitation_probability : ℚ

structure DayWeather where
  date : ℤ
  morning : DaypartWeather
  afternoon : DaypartWeather
  evening : DaypartWeather

structure LodgingOption where
  id : String
  name : String
  address : String
  nightly_rate : ℚ
  currency : String
  sustainability_score : Option ℚ
  emissions_kg : Option ℝ

structure PointOfInterest where
  name : String
  category : String
  description : Option String

/-- Embedding of `schemas.DedalusItineraryDay`. -/
structure DedalusItineraryDay where
  day : ℤ
  morning : String
  afternoon : String
  evening : String

/-- One entry of the parsed `days` list, with the optional fields the
source reads via `day_data.get(...)`. -/
structure DedalusDayData where
  day : Option ℤ
  morning : Option String
  afternoon : Option String
  evening : Option String

/-- The `totals` object; either key may be absent. -/
structure Totals where
  cost : Option ℚ
  emissions_kg : Option ℝ

/-- Shape of a successfully parsed Dedalus response as consumed by
`generate_itinerary` (`dedalus_response.get("days"/"totals"/"rationale")`). -/
structure DedalusResp where
  days : List DedalusDayData
  totals : Option Totals
  rationale : Option String

/-- Embedding of `schemas.GreenTripFlightOption`. -/
structure GreenTripFlightOption where
  id : String
  carrier : String
  origin : String
  destination : String
  departure : ℚ
  arrival : ℚ
  price : ℚ
  currency : String
  eco_score : Option ℝ
  emissions_kg : Option ℝ

/-- Embedding of `schemas.GreenTripItineraryResponse` (the fields the
pipeline populates). -/
structure GreenTripItineraryResponse where
  destination : String
  start_date : ℤ
  end_date : ℤ
  num_days : ℤ
  budget : ℚ
  mode : String
  days : List DedalusItineraryDay
  totals : Totals
  rationale : String
  eco_score : ℝ
  flights : List GreenTripFlightOption
  day_weather : List DayWeather

/-- `_resolve_trip_dates`: returns (start, end, trip_days).  A missing
start defaults to today + 30; a missing end to start + (num_days or 5) - 1;
an end before the start is clamped to the start; `trip_days =
max(1, (end - start).days + 1)`. -/
def resolveTripDates (request : ItineraryGenerationRequest) (today : ℤ) : ℤ × ℤ × ℤ :=
  let start := request.start_date.getD (today + 30)
  let endD :=
    match request.end_date with
    | some e => e
    | none =>
      let fallbackDays := intOr request.num_days 5
      start + (fallbackDays - 1)
  let endD := if endD < start then start else endD
  (start, endD, max 1 (endD - start + 1))

/-- Fallback coordinate table of `generate_itinerary` (lines 62-70), keyed
by the lower-cased destination, with Paris as the final default. -/
def geocodeWithFallback (destination : String) (geocode : Option (ℚ × ℚ)) : ℚ × ℚ :=
  match geocode with
  | some ll => ll
  | none =>
    let fallbackCoords : List (String × ℚ × ℚ) :=
      [("paris", 48.8566, 2.3522), ("paris, france", 48.8566, 2.3522),
       ("new york", 40.7128, -74.0060), ("new york, usa", 40.7128, -74.0060),
       ("london", 51.5074, -0.1278), ("tokyo", 35.6762, 139.6503),
       ("rome", 41.9028, 12.4964)]
    match fallbackCoords.lookup (strToLower destination) with
    | some ll => ll
    | none => (48.8566, 2.3522)

/-- Emission enrichment for one flight (lines 144-157): only flights whose
`emissions_kg` is falsy (absent or zero) are touched; those receive the
Climatiq estimate when it succeeded, else the flat 200 kg heuristic. -/
noncomputable def enrichFlight (climatiqFlight : Option ℝ) (f : FlightOption) : FlightOption :=
  let estimate : ℝ :=
    match climatiqFlight with
    | some e => e
    | none => ((estimateFlightEmissionsFallback 1 : ℚ) : ℝ)
  let apply : FlightOption := { f with emissions_kg := some estimate }
  match f.emissions_kg with
  | some e => if e = 0 then apply else f
  | none => apply

/-- Emission enrichment for one hotel (lines 159-169): the Climatiq stay
total (or the 15 kg/night heuristic) divided by the stay length. -/
noncomputable def enrichHotel (climatiqHotel : Option ℝ) (tripDays : ℤ)
    (h : LodgingOption) : LodgingOption :=
  let estimate : ℝ :=
    match climatiqHotel with
    | some e => e / (tripDays : ℝ)
    | none => ((estimateHotelEmissionsFallback (tripDays : ℚ) : ℚ) : ℝ) / (tripDays : ℝ)
  let apply : LodgingOption := { h with emissions_kg := some estimate }
  match h.emissions_kg with
  | some e => if e = 0 then apply else h
  | none => apply

/-- Conversion of the parsed `days` list (lines 206-215): a missing `day`
number defaults to `len(itinerary_days) + 1`, i.e. the running position;
missing texts default to the empty string. -/
def buildItineraryDays (daysData : List DedalusDayData) : List DedalusItineraryDay :=
  daysData.foldl
    (fun acc d =>
      acc ++ [{ day := d.day.getD ((acc.length : ℤ) + 1)
                morning := d.morning.getD ""
                afternoon := d.afternoon.getD ""
                evening := d.evening.getD "" }])
    []

/-- `_compute_flight_eco_score`: `max(0, min(100, 100 - emissions))`. -/
noncomputable def computeFlightEcoScore (emissions_kg : Option ℝ) : Option ℝ :=
  emissions_kg.map (fun e => max 0 (min 100 (100 - e)))

/-- `_summarize_flights`: flights without segments are skipped; the rest
are projected onto their first/last segments. -/
noncomputable def summarizeFlights (flights : List FlightOption) : List GreenTripFlightOption :=
  flights.filterMap (fun option =>
    match option.segments with
    | [] => none
    | first :: rest =>
      let lastSeg := (first :: rest).getLast (List.cons_ne_nil _ _)
      some
        { id := option.id
          carrier := if first.carrier = "" then "Carrier" else first.carrier
          origin := first.origin
          destination := lastSeg.destination
          departure := first.departure
          arrival := lastSeg.arrival
          price := option.price
          currency := option.currency
          eco_score := computeFlightEcoScore option.emissions_kg
          emissions_kg := option.emissions_kg })

/-- `_fallback_daypart_weather_list`: one mild-conditions record per day
from start to end inclusive. -/
def fallbackDaypartWeatherList (start endD : ℤ) : List DayWeather :=
  let slice : DaypartWeather :=
    { summary := "Mild conditions", temperature_c := 20, precipitation_probability := 0.2 }
  (List.range (endD + 1 - start).toNat).map (fun (i : ℕ) =>
    { date := start + (i : ℤ), morning := slice, afternoon := slice, evening := slice })

/-- `_fallback_itinerary`: templated day entries, totals from the cheapest
listed flight and hotel (with the 200 kg / 15 kg-per-night substitutes),
and the shared eco-score formula. -/
noncomputable def fallbackItinerary (request : ItineraryGenerationRequest)
    (flights : List FlightOption) (hotels : List LodgingOption)
    (startD endD : ℤ) (_weatherDaily : List WeatherForecast)
    (daypartWeather : List DayWeather) : GreenTripItineraryResponse :=
  let n := intOr request.num_days 1
  let days : List DedalusItineraryDay :=
    (List.range n.toNat).map (fun (i : ℕ) =>
      { day := (i : ℤ) + 1
        morning := "Explore " ++ request.destination ++ " - morning activities"
        afternoon := "Visit local attractions - afternoon activities"
        evening := "Enjoy local cuisine and culture - evening activities" })
  let nights := intOr request.num_days 1
  let totalCost : ℚ :=
    (match flights with | f :: _ => f.price | [] => 0) +
    (match hotels with | h :: _ => h.nightly_rate * nights | [] => 0)
  let flightEmissions : ℝ :=
    match flights with
    | f :: _ =>
      match f.emissions_kg with
      | some e => if e = 0 then 200 else e
      | none => 200
    | [] => 200
  let hotelEmissions : ℝ :=
    match hotels with
    | h :: _ =>
      match h.emissions_kg with
      | some e => if e = 0 then 15 * (nights : ℝ) else e * (nights : ℝ)
      | none => 15 * (nights : ℝ)
    | [] => 15 * (nights : ℝ)
  let totalEmissions : ℝ := flightEmissions + hotelEmissions
  { destination := request.destination
    start_date := startD
    end_date := endD
    num_days := intOr request.num_days nights
    budget := request.budget
    mode := request.mode
    days := days
    totals := { cost := some totalCost, emissions_kg := some totalEmissions }
    rationale := "Fallback itinerary generated due to API unavailability."
    eco_score := max 0 (100 - totalEmissions / 10)
    flights := summarizeFlights flights
    day_weather := if daypartWeather.isEmpty then fallbackDaypartWeatherList startD endD
                   else daypartWeather }

/-- Outcomes of every external interaction of one `generate_itinerary`
run.  `dedalus = none` covers every exception escaping the `try` block —
a failed call, unparseable output (`callDedalusParse = none`), and the
in-`try` logging failure on a non-sized `days` value. -/
structure PipelineEnv where
  today : ℤ
  geocode : Option (ℚ × ℚ)
  keywordOriginLookup : Option String
  keywordDestLookup : Option String
  flightsOutcome : FlightsApiOutcome
  hotels : List LodgingOption
  weatherDaily : List WeatherForecast
  daypartWeather : List DayWeather
  attractions : List PointOfInterest
  climatiqFlight : Option ℝ
  climatiqHotel : Option ℝ
  dedalus : Option DedalusResp

/-- Success path of `generate_itinerary` (lines 200-242): echo the parsed
days and totals without any shape validation, compute the eco score from
`totals.get("emissions_kg", 0)`, and attach flight summaries. -/
noncomputable def successResponse (request : ItineraryGenerationRequest)
    (startD endD tripDays : ℤ) (resp : DedalusResp)
    (flights : List FlightOption) (daypartWeather : List DayWeather) :
    GreenTripItineraryResponse :=
  let itineraryDays := buildItineraryDays resp.days
  let totals := resp.totals.getD { cost := some 0, emissions_kg := some 0 }
  let rationale := resp.rationale.getD "Itinerary generated based on available data."
  let totalEmissions : ℝ := totals.emissions_kg.getD 0
  { destination := request.destination
    start_date := startD
    end_date := endD
    num_days := tripDays
    budget := request.budget
    mode := request.mode
    days := itineraryDays
    totals := totals
    rationale := rationale
    eco_score := max 0 (100 - totalEmissions / 10)
    flights := summarizeFlights flights
    day_weather := daypartWeather }

/-- `generate_itinerary`: date normalisation, geocoding with fallback,
airport-code resolution, the four fetches, emission enrichment, then
either the success path or `_fallback_itinerary` depending on the Dedalus
outcome. -/
noncomputable def generateItinerary (env : PipelineEnv)
    (request : ItineraryGenerationRequest) : GreenTripItineraryResponse :=
  let r := resolveTripDates request env.today
  let startD := r.1
  let endD := r.2.1
  let tripDays := r.2.2
  let normalized :=
    { request with start_date := some startD, end_date := some endD,
                   num_days := some tripDays }
  let _ll := geocodeWithFallback request.destination env.geocode
  let originInput := strOr request.origin "New York"
  let originCode :=
    strOr (resolveAirportCode env.keywordOriginLookup none false originInput) "JFK"
  let destinationCode :=
    strOr (resolveAirportCode env.keywordDestLookup none false request.destination)
      request.destination
  let flights := fetchFlightsAmadeus env.flightsOutcome env.keywordOriginLookup
    env.keywordDestLookup originCode destinationCode startD (some endD)
  let hotels := env.hotels
  let flights := flights.map (enrichFlight env.climatiqFlight)
  let hotels := hotels.map (enrichHotel env.climatiqHotel tripDays)
  match env.dedalus with
  | none =>
    fallbackItinerary normalized flights hotels startD endD env.weatherDaily
      env.daypartWeather
  | some resp =>
    successResponse request startD endD tripDays resp flights env.daypartWeather

/-! ## Aggregator scheduling (lines 100-141)

The source performs `flights = await ...`, then `hotels = await ...`, then
weather, then attractions: each `await` runs its fetch to completion
before the next statement starts, so the trace of one run is fully
sequential.  `awaitCall` appends the start/completion pair of one awaited
fetch to the running trace. -/

inductive FetchKind where
  | flights
  | hotels
  | weather
  | attractions
  deriving DecidableEq

inductive FetchEvent where
  | started (k : FetchKind)
  | completed (k : FetchKind)
  deriving DecidableEq

/-- One `await provider.fetch(...)` statement: the fetch starts and runs to
completion before control returns. -/
def awaitCall (k : FetchKind) (trace : List FetchEvent) : List FetchEvent :=
  trace ++ [.started k, .completed k]

/-- The fetch trace of `generate_itinerary`: flights, hotels, weather and
attractions awaited one after another. -/
def aggregatorFetchTrace : List FetchEvent :=
  awaitCall .attractions (awaitCall .weather (awaitCall .hotels (awaitCall .flights [])))

/-! ## Concrete fixtures used to instantiate the theorems -/

/-- A three-day Paris request. -/
def parisRequest : ItineraryGenerationRequest :=
  { destination := "Paris", origin := none, start_date := none, end_date := none,
    num_days := some 3, budget := 2000, preferences := [], likes := [],
    dislikes := [], dietary_restrictions := [], mode := "balanced" }

/-- An environment in which every provider interaction failed. -/
def allFailEnv : PipelineEnv :=
  { today := 0, geocode := none, keywordOriginLookup := none,
    keywordDestLookup := none, flightsOutcome := .apiError, hotels := [],
    weatherDaily := [], daypartWeather := [], attractions := [],
    climatiqFlight := none, climatiqHotel := none, dedalus := none }

/-- A parsed Dedalus response with an empty day list and given total
emissions. -/
def dedalusTotals (E : ℝ) : DedalusResp :=
  { days := [], totals := some { cost := some 0, emissions_kg := some E },
    rationale := none }

/-- A parsed Amadeus offer without segments (so the 1500 km default
distance applies to its local emission estimate). -/
def emptySegOffer : AmadeusOffer :=
  { segments := [], price := 100, cabin := none, booking_url := "" }

/-- A lodging option already carrying an emissions figure. -/
def hotelWithEmissions (e : ℝ) : LodgingOption :=
  { id := "h1", name := "Hotel", address := "", nightly_rate := 100,
    currency := "USD", sustainability_score := none, emissions_kg := some e }

/-- A one-segment flight between airports with known coordinates
(JFK → CDG), seven hours long. -/
def segKnownJfkCdg : FlightSegment :=
  { carrier := "AA", flight_number := "1", origin := "JFK", destination := "CDG",
    departure := 0, arrival := 25200 }

/-- A segment between airports absent from `AIRPORT_COORDS`, 93 hours long
(so the two-segment duration total is 100 hours). -/
def segUnknownCoords : FlightSegment :=
  { carrier := "ZZ", flight_number := "2", origin := "AAA", destination := "BBB",
    departure := 0, arrival := 334800 }

/-! ## Theorems -/

section RoundingEval

variable {α : Type} [LinearOrderedField α] [FloorRing α]

theorem roundHalfEven_intCast (k : ℤ) : roundHalfEven (k : α) = k := by
  unfold roundHalfEven
  simp only [Int.floor_intCast, sub_self]
  rw [if_pos (by norm_num : (0:α) < 1/2)]

/-- Rounding is the identity on values that are already exact at `n`
digits. -/
theorem roundTo_eq_of_mul_intCast (n : ℕ) (x : α) (k : ℤ) (h : x * 10 ^ n = (k : α)) :
    roundTo n x = x := by
  unfold roundTo
  rw [h, roundHalfEven_intCast, div_eq_iff (by positivity : (10:α) ^ n ≠ 0)]
  exact h.symm

/-- Evaluation of `roundTo` when the scaled value falls strictly inside the
lower half of an integer gap. -/
theorem roundTo_eq_of_floor (n : ℕ) (x : α) (k : ℤ) (h1 : (k : α) ≤ x * 10 ^ n)
    (h2 : x * 10 ^ n - k < 1/2) : roundTo n x = (k : α) / 10 ^ n := by
  have hf : ⌊x * 10 ^ n⌋ = k := by
    rw [Int.floor_eq_iff]
    constructor
    · exact h1
    · linarith
  unfold roundTo roundHalfEven
  simp only [hf]
  rw [if_pos h2]

end RoundingEval

/-- First-match association lookup lands on one of the stored values. -/
theorem lookup_mem_values {α β : Type} [BEq α] {k : α} {v : β} :
    ∀ {l : List (α × β)}, l.lookup k = some v → v ∈ l.map Prod.snd := by
  intro l
  induction l with
  | nil => intro h; simp [List.lookup] at h
  | cons p t ih =>
    obtain ⟨a, b⟩ := p
    intro h
    cases hb : k == a with
    | true =>
      simp only [List.lookup, hb, Option.some.injEq] at h
      simp [h]
    | false =>
      simp only [List.lookup, hb] at h
      simp only [List.map_cons, List.mem_cons]
      exact Or.inr (ih h)

theorem cabinEmissionMultiplier_economy : cabinEmissionMultiplier "economy" = 1.0 := rfl

theorem cabinEmissionMultiplier_premium :
    cabinEmissionMultiplier "premium economy" = 1.15 := rfl

theorem cabinEmissionMultiplier_business : cabinEmissionMultiplier "business" = 1.5 := rfl

theorem cabinEmissionMultiplier_first : cabinEmissionMultiplier "first" = 2.0 := rfl

theorem cabinEmissionMultiplier_nonneg (cabin : String) :
    0 ≤ cabinEmissionMultiplier cabin := by
  unfold cabinEmissionMultiplier
  cases h : CABIN_VARIANTS.lookup (strToLower cabin) with
  | none => norm_num
  | some m =>
    have hm := lookup_mem_values h
    simp only [CABIN_VARIANTS, List.map_cons, List.map_nil, List.mem_cons,
      List.not_mem_nil, or_false] at hm
    rcases hm with hm | hm | hm | hm <;> rw [hm] <;> norm_num

theorem baseEmissionFactor_nonneg (d : ℝ) : 0 ≤ baseEmissionFactor d := by
  unfold baseEmissionFactor
  repeat' split
  all_goals norm_num

/-- Concrete evaluation at the top of the short-haul band. -/
theorem estimateEmissions_1500_economy : estimateEmissions 1500 "economy" = 450.3 := by
  unfold estimateEmissions
  have hb : baseEmissionFactor 1500 = 0.158 * 1.9 := by
    unfold baseEmissionFactor
    rw [if_pos (by norm_num : (1500:ℝ) ≤ 1500)]
  rw [hb, cabinEmissionMultiplier_economy]
  rw [roundTo_eq_of_mul_intCast 1 _ 4503 (by push_cast; norm_num)]
  norm_num

/-- Concrete evaluation just past the short-haul band boundary: the lower
medium-haul factor makes the estimate drop. -/
theorem estimateEmissions_1600_economy : estimateEmissions 1600 "economy" = 337.4 := by
  unfold estimateEmissions
  have hb : baseEmissionFactor 1600 = 0.111 * 1.9 := by
    unfold baseEmissionFactor
    rw [if_neg (by norm_num : ¬ (1600:ℝ) ≤ 1500), if_pos (by norm_num : (1600:ℝ) ≤ 3500)]
  rw [hb, cabinEmissionMultiplier_economy]
  rw [roundTo_eq_of_floor 1 _ 3374 (by push_cast; norm_num) (by push_cast; norm_num)]
  norm_num

/-- C6 counterexample: the flight-emission estimate is not monotonically
non-decreasing in distance across band boundaries — a 1600 km economy
flight is charged less (337.4 kg) than a 1500 km one (450.3 kg). -/
theorem C6_counterexample :
    estimateEmissions 1500 "economy" = 450.3 ∧
    estimateEmissions 1600 "economy" = 337.4 ∧
    estimateEmissions 1600 "economy" < estimateEmissions 1500 "economy" := by
  refine ⟨estimateEmissions_1500_economy, estimateEmissions_1600_economy, ?_⟩
  rw [estimateEmissions_1500_economy, estimateEmissions_1600_economy]
  norm_num

/-- C6 amended: the estimate is monotonically non-decreasing in distance
only within a single distance band (equal band factors), and monotonically
non-decreasing along the cabin chain economy ≤ premium economy ≤ business ≤
first for any fixed non-negative distance. -/
theorem C6_monotone_within_band_and_cabin :
    (∀ (d1 d2 : ℝ) (cabin : String), 0 ≤ d1 → d1 ≤ d2 →
      baseEmissionFactor d1 = baseEmissionFactor d2 →
      estimateEmissions d1 cabin ≤ estimateEmissions d2 cabin) ∧
    (∀ d : ℝ, 0 ≤ d →
      estimateEmissions d "economy" ≤ estimateEmissions d "premium economy" ∧
      estimateEmissions d "premium economy" ≤ estimateEmissions d "business" ∧
      estimateEmissions d "business" ≤ estimateEmissions d "first") := by
  constructor
  · intro d1 d2 cabin h0 h12 hband
    unfold estimateEmissions
    apply roundTo_mono
    rw [hband]
    have hm : (0:ℝ) ≤ (cabinEmissionMultiplier cabin : ℝ) := by
      exact_mod_cast cabinEmissionMultiplier_nonneg cabin
    have hf := baseEmissionFactor_nonneg d2
    have : d1 * baseEmissionFactor d2 ≤ d2 * baseEmissionFactor d2 :=
      mul_le_mul_of_nonneg_right h12 hf
    exact mul_le_mul_of_nonneg_right this hm
  · intro d hd
    have hf := baseEmissionFactor_nonneg d
    have hdf : 0 ≤ d * baseEmissionFactor d := mul_nonneg hd hf
    refine ⟨?_, ?_, ?_⟩ <;> unfold estimateEmissions <;> apply roundTo_mono
    · rw [cabinEmissionMultiplier_economy, cabinEmissionMultiplier_premium]
      apply mul_le_mul_of_nonneg_left _ hdf
      norm_num
    · rw [cabinEmissionMultiplier_premium, cabinEmissionMultiplier_business]
      apply mul_le_mul_of_nonneg_left _ hdf
      norm_num
    · rw [cabinEmissionMultiplier_business, cabinEmissionMultiplier_first]
      apply mul_le_mul_of_nonneg_left _ hdf
      norm_num

/-- Witness for the amended C6 at concrete inputs: 100 km ≤ 200 km inside
the short-haul band for economy, and the cabin chain at 1000 km. -/
theorem C6_monotone_witness :
    estimateEmissions 100 "economy" ≤ estimateEmissions 200 "economy" ∧
    (estimateEmissions 1000 "economy" ≤ estimateEmissions 1000 "premium economy" ∧
     estimateEmissions 1000 "premium economy" ≤ estimateEmissions 1000 "business" ∧
     estimateEmissions 1000 "business" ≤ estimateEmissions 1000 "first") := by
  constructor
  · apply C6_monotone_within_band_and_cabin.1 100 200 "economy" (by norm_num) (by norm_num)
    unfold baseEmissionFactor
    rw [if_pos (by norm_num : (100:ℝ) ≤ 1500), if_pos (by norm_num : (200:ℝ) ≤ 1500)]
  · exact C6_monotone_within_band_and_cabin.2 1000 (by norm_num)

/-- C3: the four aggregator fetches are claimed to be issued concurrently,
with no fetch's start ordered after another fetch's completion.  In the
source each fetch is awaited to completion before the next one is issued:
the run trace is fully sequential, and in particular the hotels fetch
starts (index 2) strictly after the flights fetch completes (index 1),
and likewise down the chain.  This refutes the claimed scheduling and
contradicts the source's own `Fetch data in parallel` comment. -/
theorem C3_fetches_sequential :
    aggregatorFetchTrace =
      [.started .flights, .completed .flights, .started .hotels, .completed .hotels,
       .started .weather, .completed .weather, .started .attractions,
       .completed .attractions] ∧
    aggregatorFetchTrace.get? 1 = some (.completed .flights) ∧
    aggregatorFetchTrace.get? 2 = some (.started .hotels) := by
  refine ⟨rfl, rfl, rfl⟩

/-- C9: when the request carries both a start and an end date, the day
count produced by `_resolve_trip_dates` is `end - start + 1` clamped to at
least 1, whatever `num_days` was supplied. -/
theorem C9_date_range_wins (request : ItineraryGenerationRequest) (today s e : ℤ)
    (hs : request.start_date = some s) (he : request.end_date = some e) :
    (resolveTripDates request today).2.2 = max 1 (e - s + 1) := by
  simp only [resolveTripDates, hs, he, Option.getD_some]
  split <;> omega

/-- Witness for C9 at the concrete date range of the spec example
(start 2025-06-01 and end 2025-06-05 as ordinals 739403 and 739407), with
a contradictory `num_days = 99` supplied. -/
theorem C9_date_range_wins_witness :
    (resolveTripDates
      { destination := "Paris", origin := none, start_date := some 739403,
        end_date := some 739407, num_days := some 99, budget := 2000,
        preferences := [], likes := [], dislikes := [],
        dietary_restrictions := [], mode := "balanced" } 0).2.2 = 5 := by
  rw [C9_date_range_wins _ 0 739403 739407 rfl rfl]
  norm_num

/-- C10: a request whose end date precedes its start date is not rejected:
`_resolve_trip_dates` silently clamps the end to the start, the pipeline
proceeds with one trip day, and the response (on either the Dedalus or the
fallback path) echoes the clamped end date. -/
theorem C10_end_clamped (env : PipelineEnv) (request : ItineraryGenerationRequest)
    (s e : ℤ) (hs : request.start_date = some s) (he : request.end_date = some e)
    (hlt : e < s) :
    resolveTripDates request env.today = (s, s, 1) ∧
    (generateItinerary env request).start_date = s ∧
    (generateItinerary env request).end_date = s ∧
    (generateItinerary env request).num_days = 1 := by
  have hr : resolveTripDates request env.today = (s, s, 1) := by
    simp only [resolveTripDates, hs, he, Option.getD_some]
    rw [if_pos hlt]
    have h1 : (1:ℤ) ⊔ (s - s + 1) = 1 := by omega
    rw [h1]
  refine ⟨hr, ?_⟩
  unfold generateItinerary
  rw [hr]
  cases hd : env.dedalus with
  | none => simp [fallbackItinerary, intOr]
  | some resp => simp [successResponse]

/-- Witness for C10: start ordinal 10, end ordinal 3, fully failed
environment. -/
theorem C10_end_clamped_witness :
    resolveTripDates { parisRequest with start_date := some 10, end_date := some 3 }
        allFailEnv.today = (10, 10, 1) ∧
    (generateItinerary allFailEnv
        { parisRequest with start_date := some 10, end_date := some 3 }).start_date = 10 ∧
    (generateItinerary allFailEnv
        { parisRequest with start_date := some 10, end_date := some 3 }).end_date = 10 ∧
    (generateItinerary allFailEnv
        { parisRequest with start_date := some 10, end_date := some 3 }).num_days = 1 :=
  C10_end_clamped allFailEnv _ 10 3 rfl rfl (by norm_num)

theorem ecoMax_eval {E v : ℝ} (h : 100 - E / 10 = v) (hv : 0 ≤ v) :
    max 0 (100 - E / 10) = v := by rw [h, max_eq_right hv]

theorem ecoMax_zero {E : ℝ} (h : 100 - E / 10 ≤ 0) : max 0 (100 - E / 10) = 0 :=
  max_eq_left h

/-- C8: on both the Dedalus-generated and the fallback path the trip eco
score is `max(0, 100 - total_emissions/10)` computed from the response's
own totals, it lies in [0, 100] whenever the total emissions are
non-negative, and it takes the values 100, 50, 0, 0 at total emissions 0,
500, 1000, 2000. -/
theorem C8_eco_score :
    (∀ (env : PipelineEnv) (request : ItineraryGenerationRequest),
      (generateItinerary env request).eco_score =
        max 0 (100 - ((generateItinerary env request).totals.emissions_kg.getD 0) / 10) ∧
      (0 ≤ (generateItinerary env request).totals.emissions_kg.getD 0 →
        0 ≤ (generateItinerary env request).eco_score ∧
        (generateItinerary env request).eco_score ≤ 100)) ∧
    (generateItinerary { allFailEnv with dedalus := some (dedalusTotals 0) }
      parisRequest).eco_score = 100 ∧
    (generateItinerary { allFailEnv with dedalus := some (dedalusTotals 500) }
      parisRequest).eco_score = 50 ∧
    (generateItinerary { allFailEnv with dedalus := some (dedalusTotals 1000) }
      parisRequest).eco_score = 0 ∧
    (generateItinerary { allFailEnv with dedalus := some (dedalusTotals 2000) }
      parisRequest).eco_score = 0 := by
  have hmain : ∀ (env : PipelineEnv) (request : ItineraryGenerationRequest),
      (generateItinerary env request).eco_score =
        max 0 (100 - ((generateItinerary env request).totals.emissions_kg.getD 0) / 10) := by
    intro env request
    unfold generateItinerary
    cases hd : env.dedalus with
    | none => simp [fallbackItinerary]
    | some resp => simp [successResponse]
  refine ⟨fun env request => ⟨hmain env request, fun hE => ?_⟩, ?_, ?_, ?_, ?_⟩
  · rw [hmain env request]
    constructor
    · exact le_max_left _ _
    · apply max_le (by norm_num)
      have : 0 ≤ (generateItinerary env request).totals.emissions_kg.getD 0 / 10 := by
        positivity
      linarith
  all_goals
    rw [hmain]
    simp only [generateItinerary, allFailEnv, dedalusTotals, successResponse,
      Option.getD_some]
  · exact ecoMax_eval (by norm_num) (by norm_num)
  · exact ecoMax_eval (by norm_num) (by norm_num)
  · exact ecoMax_zero (by norm_num)
  · exact ecoMax_zero (by norm_num)

/-- Witness for C8's bounded-range conjunct at total emissions 500. -/
theorem C8_eco_score_witness :
    0 ≤ (generateItinerary { allFailEnv with dedalus := some (dedalusTotals 500) }
          parisRequest).eco_score ∧
    (generateItinerary { allFailEnv with dedalus := some (dedalusTotals 500) }
          parisRequest).eco_score ≤ 100 := by
  apply (C8_eco_score.1 _ parisRequest).2
  simp only [generateItinerary, allFailEnv, dedalusTotals, successResponse,
    Option.getD_some]
  norm_num

/-- Length of the running fold that builds the day list. -/
theorem foldl_append_singleton_length {α β : Type} (g : List β → α → β) :
    ∀ (l : List α) (acc : List β),
      (l.foldl (fun acc d => acc ++ [g acc d]) acc).length = acc.length + l.length := by
  intro l
  induction l with
  | nil => intro acc; simp
  | cons d t ih =>
    intro acc
    rw [List.foldl_cons, ih]
    simp
    omega


theorem buildItineraryDays_length (daysData : List DedalusDayData) :
    (buildItineraryDays daysData).length = daysData.length := by
  unfold buildItineraryDays
  have h := foldl_append_singleton_length
    (fun (acc : List DedalusItineraryDay) (d : DedalusDayData) =>
      ({ day := d.day.getD ((acc.length : ℤ) + 1), morning := d.morning.getD "",
         afternoon := d.afternoon.getD "", evening := d.evening.getD "" } :
        DedalusItineraryDay)) daysData []
  simpa using h

/-- The resolved trip day count is always at least one. -/
theorem resolveTripDates_pos (request : ItineraryGenerationRequest) (today : ℤ) :
    1 ≤ (resolveTripDates request today).2.2 := by
  unfold resolveTripDates
  cases request.end_date <;> simp only <;> split <;> omega

/-- C1 counterexample: a Dedalus call that succeeds but returns an empty
day list is passed through unvalidated — the response has zero days while
the trip spans three, and the deterministic fallback (which would have
produced three templated days) is not substituted. -/
theorem C1_counterexample :
    (generateItinerary { allFailEnv with dedalus := some (dedalusTotals 0) }
      parisRequest).days = [] ∧
    (resolveTripDates parisRequest allFailEnv.today).2.2 = 3 := by
  constructor
  · simp [generateItinerary, successResponse, dedalusTotals, buildItineraryDays]
  · norm_num [resolveTripDates, parisRequest, allFailEnv, intOr]

/-- C1 amended: the fallback path always produces exactly `trip_days` day
entries numbered 1..trip_days, but the Dedalus path echoes however many
days the parsed response contains, with no length or numbering
validation. -/
theorem C1_day_shape :
    (∀ (env : PipelineEnv) (request : ItineraryGenerationRequest),
      env.dedalus = none →
      ((generateItinerary env request).days.map (fun d => d.day)) =
        (List.range (resolveTripDates request env.today).2.2.toNat).map
          (fun (i : ℕ) => (i : ℤ) + 1) ∧
      (generateItinerary env request).days.length =
        (resolveTripDates request env.today).2.2.toNat) ∧
    (∀ (env : PipelineEnv) (request : ItineraryGenerationRequest) (resp : DedalusResp),
      env.dedalus = some resp →
      (generateItinerary env request).days.length = resp.days.length) := by
  constructor
  · intro env request hd
    have hpos := resolveTripDates_pos request env.today
    have hne : (resolveTripDates request env.today).2.2 ≠ 0 := by omega
    have hio : intOr (some (resolveTripDates request env.today).2.2) 1 =
        (resolveTripDates request env.today).2.2 := by
      simp [intOr, hne]
    unfold generateItinerary
    rw [hd]
    simp only [fallbackItinerary, hio]
    refine ⟨?_, ?_⟩
    · rw [List.map_map]
      rfl
    · simp
  · intro env request resp hd
    unfold generateItinerary
    rw [hd]
    simp only [successResponse]
    exact buildItineraryDays_length resp.days

/-- Witness for the amended C1: the fallback path with the Paris request,
and the unvalidated Dedalus path with an empty parsed day list. -/
theorem C1_day_shape_witness :
    (((generateItinerary allFailEnv parisRequest).days.map (fun d => d.day)) =
      (List.range (resolveTripDates parisRequest allFailEnv.today).2.2.toNat).map
        (fun (i : ℕ) => (i : ℤ) + 1) ∧
    (generateItinerary allFailEnv parisRequest).days.length =
      (resolveTripDates parisRequest allFailEnv.today).2.2.toNat) ∧
    (generateItinerary { allFailEnv with dedalus := some (dedalusTotals 42) }
      parisRequest).days.length = (dedalusTotals 42).days.length :=
  ⟨C1_day_shape.1 allFailEnv parisRequest rfl,
   C1_day_shape.2 _ parisRequest (dedalusTotals 42) rfl⟩

/-- A text without any opening brace cannot match the extraction regex. -/
theorem extractBracedSpan_eq_none {s : String} (h : ∀ c ∈ s.data, c ≠ '\x7b') :
    extractBracedSpan s = none := by
  unfold extractBracedSpan
  have hf : s.data.findIdx? (fun c => c = '\x7b') = none := by
    rw [List.findIdx?_eq_none_iff]
    intro c hc
    simp [h c hc]
  simp only [hf]

/-- C5 counterexample: prose containing two embedded JSON objects.  The
first balanced brace span parses on its own, but the source extracts the
greedy span from the first opening brace to the last closing brace, whose
parse fails, so the whole validation errors into the deterministic
fallback — refuting the claimed first-balanced-span extraction. -/
theorem C5_counterexample :
    jsonParse "\x7b\"a\": \"x\"\x7d" = some (.obj [("a", .str "x")]) ∧
    callDedalusParse "plan: \x7b\"a\": \"x\"\x7d and \x7b\"b\": \"y\"\x7d" = none :=
  ⟨rfl, rfl⟩

/-- C5 amended: validation attempts the direct parse first; on failure it
extracts the span from the first opening brace to the last closing brace
(not the first balanced span) and parses that; text with no opening brace
at all errors into the deterministic fallback.  Prose whose only braces
delimit a single embedded JSON object still parses via extraction. -/
theorem C5_parse_validation :
    (∀ (s : String) (j : Json), jsonParse s = some j → callDedalusParse s = some j) ∧
    (∀ s : String, (∀ c ∈ s.data, c ≠ '\x7b') → jsonParse s = none →
      callDedalusParse s = none) ∧
    callDedalusParse "Here is the plan: \x7b\"days\": []\x7d enjoy" =
      some (.obj [("days", .arr [])]) ∧
    callDedalusParse "no json here" = none := by
  refine ⟨?_, ?_, rfl, rfl⟩
  · intro s j h
    unfold callDedalusParse
    rw [h]
  · intro s hno hparse
    unfold callDedalusParse
    rw [hparse, extractBracedSpan_eq_none hno]

/-- Witness for the amended C5: a direct parse of a bare object, and a
brace-free rejection. -/
theorem C5_parse_validation_witness :
    callDedalusParse "\x7b\x7d" = some (.obj []) ∧
    callDedalusParse "hello" = none :=
  ⟨C5_parse_validation.1 "\x7b\x7d" (.obj []) rfl,
   C5_parse_validation.2.1 "hello" (by decide) rfl⟩

/-- The default 1500 km distance applies to an empty segment list. -/
theorem totalDistanceKm_nil : totalDistanceKm [] = 1500 := by
  unfold totalDistanceKm knownDistanceSum anyCoordsMissing
  simp

/-- Every flight produced by `fetch_flights_amadeus` — parsed offer or
synthetic fallback — carries an emissions value computed by the local
distance/band/cabin model. -/
theorem fetchFlights_emissions_local (outcome : FlightsApiOutcome)
    (k1 k2 : Option String) (o d : String) (dep : ℤ) (ret : Option ℤ) :
    ∀ f ∈ fetchFlightsAmadeus outcome k1 k2 o d dep ret,
      ∃ (dist : ℝ) (cab : String), f.emissions_kg = some (estimateEmissions dist cab) := by
  have hfb : ∀ f ∈ fallbackFlights k1 k2 o d dep ret,
      ∃ (dist : ℝ) (cab : String), f.emissions_kg = some (estimateEmissions dist cab) := by
    intro f hf
    rw [fallbackFlights, List.Perm.mem_iff (List.mergeSort_perm _ _)] at hf
    unfold fallbackFlightsPre at hf
    simp only [List.mem_flatMap, List.mem_map] at hf
    obtain ⟨i, _, cv, _, rfl⟩ := hf
    exact ⟨_, _, rfl⟩
  cases outcome with
  | noCredentials => exact hfb
  | noToken => exact hfb
  | apiError => exact hfb
  | apiData offers =>
    intro f hf
    simp only [fetchFlightsAmadeus] at hf
    split at hf
    · exact hfb f hf
    · simp only [List.mem_map] at hf
      obtain ⟨offer, _, rfl⟩ := hf
      exact ⟨_, _, rfl⟩

/-- C2 counterexample: a flight delivered by the flight search (here a
parsed offer whose segments are empty, so the local model prices the
default 1500 km at 450.3 kg) keeps its local estimate through the
enrichment step even though the external carbon API is configured and
succeeds with 42 kg — the external result is not preferred. -/
theorem C2_counterexample :
    (fetchFlightsAmadeus (.apiData [emptySegOffer]) none none "X" "Y" 0 none).map
        (fun f => (enrichFlight (some 42) f).emissions_kg) =
      [some (estimateEmissions 1500 "economy")] ∧
    estimateEmissions 1500 "economy" = 450.3 ∧
    (450.3 : ℝ) ≠ 42 := by
  refine ⟨?_, estimateEmissions_1500_economy, by norm_num⟩
  have hne : estimateEmissions 1500 "economy" ≠ 0 := by
    rw [estimateEmissions_1500_economy]
    norm_num
  simp [fetchFlightsAmadeus, emptySegOffer, enrichFlight, totalDistanceKm_nil, hne]

/-- C2 amended: the external Climatiq estimate is consulted only for
flights whose emissions value is falsy (absent or zero) — there it is
preferred over the 200 kg heuristic — while flights that already carry an
emissions value keep it; since every flight returned by the flight search
carries a local-model estimate, the local model is primary for them. -/
theorem C2_climatiq_only_for_missing :
    (∀ (c : Option ℝ) (f : FlightOption) (e : ℝ), f.emissions_kg = some e → e ≠ 0 →
      enrichFlight c f = f) ∧
    (∀ (f : FlightOption) (e : ℝ), (f.emissions_kg = none ∨ f.emissions_kg = some 0) →
      enrichFlight (some e) f = { f with emissions_kg := some e }) ∧
    (∀ f : FlightOption, (f.emissions_kg = none ∨ f.emissions_kg = some 0) →
      enrichFlight none f =
        { f with emissions_kg := some ((estimateFlightEmissionsFallback 1 : ℚ) : ℝ) }) ∧
    (∀ (outcome : FlightsApiOutcome) (k1 k2 : Option String) (o d : String)
        (dep : ℤ) (ret : Option ℤ),
      ∀ f ∈ fetchFlightsAmadeus outcome k1 k2 o d dep ret,
        ∃ (dist : ℝ) (cab : String),
          f.emissions_kg = some (estimateEmissions dist cab)) := by
  refine ⟨?_, ?_, ?_, fetchFlights_emissions_local⟩
  · intro c f e hf he
    unfold enrichFlight
    rw [hf]
    simp [he]
  · intro f e hf
    rcases hf with hf | hf
    · unfold enrichFlight
      rw [hf]
    · unfold enrichFlight
      rw [hf]
      simp
  · intro f hf
    rcases hf with hf | hf
    · unfold enrichFlight
      rw [hf]
    · unfold enrichFlight
      rw [hf]
      simp

/-- Witness for the amended C2 at concrete flights: a flight with a
present nonzero estimate is untouched, missing estimates take the external
value or the heuristic, and a concrete fetched flight carries a
local-model estimate. -/
theorem C2_climatiq_only_for_missing_witness :
    (enrichFlight (some 42)
      { id := "f1", price := 100, currency := "USD", booking_url := none,
        segments := [], emissions_kg := some 450.3, cabin := "economy" } =
      { id := "f1", price := 100, currency := "USD", booking_url := none,
        segments := [], emissions_kg := some 450.3, cabin := "economy" }) ∧
    (enrichFlight (some 42)
      { id := "f2", price := 100, currency := "USD", booking_url := none,
        segments := [], emissions_kg := none, cabin := "economy" } =
      { id := "f2", price := 100, currency := "USD", booking_url := none,
        segments := [], emissions_kg := some 42, cabin := "economy" }) ∧
    (∃ (dist : ℝ) (cab : String),
      ((fetchFlightsAmadeus (.apiData [emptySegOffer]) none none "X" "Y" 0 none).headD
        { id := "", price := 0, currency := "", booking_url := none, segments := [],
          emissions_kg := none, cabin := "" }).emissions_kg =
        some (estimateEmissions dist cab)) := by
  refine ⟨C2_climatiq_only_for_missing.1 (some 42) _ 450.3 rfl (by norm_num), ?_, ?_⟩
  · exact C2_climatiq_only_for_missing.2.1 _ 42 (Or.inl rfl)
  · apply C2_climatiq_only_for_missing.2.2.2 (.apiData [emptySegOffer]) none none "X" "Y" 0 none
    simp [fetchFlightsAmadeus, emptySegOffer]

/-- The pre-sort fallback option list projects onto the 5 × 4 grid of
base prices times cabin price multipliers, in generation order. -/
theorem map_price_fallbackFlightsPre (k1 k2 : Option String) (o d : String)
    (dep : ℤ) (ret : Option ℤ) :
    (fallbackFlightsPre k1 k2 o d dep ret).map (fun f => f.price) =
      [roundTo 2 ((399.0:ℚ) * 1.0), roundTo 2 ((399.0:ℚ) * 1.25),
       roundTo 2 ((399.0:ℚ) * 1.8), roundTo 2 ((399.0:ℚ) * 2.6),
       roundTo 2 ((429.0:ℚ) * 1.0), roundTo 2 ((429.0:ℚ) * 1.25),
       roundTo 2 ((429.0:ℚ) * 1.8), roundTo 2 ((429.0:ℚ) * 2.6),
       roundTo 2 ((475.0:ℚ) * 1.0), roundTo 2 ((475.0:ℚ) * 1.25),
       roundTo 2 ((475.0:ℚ) * 1.8), roundTo 2 ((475.0:ℚ) * 2.6),
       roundTo 2 ((515.0:ℚ) * 1.0), roundTo 2 ((515.0:ℚ) * 1.25),
       roundTo 2 ((515.0:ℚ) * 1.8), roundTo 2 ((515.0:ℚ) * 2.6),
       roundTo 2 ((559.0:ℚ) * 1.0), roundTo 2 ((559.0:ℚ) * 1.25),
       roundTo 2 ((559.0:ℚ) * 1.8), roundTo 2 ((559.0:ℚ) * 2.6)] := rfl

/-- The twenty synthetic prices, evaluated. -/
theorem map_price_fallbackFlightsPre_eval (k1 k2 : Option String) (o d : String)
    (dep : ℤ) (ret : Option ℤ) :
    (fallbackFlightsPre k1 k2 o d dep ret).map (fun f => f.price) =
      [399, 498.75, 718.2, 1037.4, 429, 536.25, 772.2, 1115.4,
       475, 593.75, 855, 1235, 515, 643.75, 927, 1339,
       559, 698.75, 1006.2, 1453.4] := by
  have hr : ∀ (x : ℚ) (k : ℤ), x * 100 = (k:ℚ) → roundTo 2 x = x := fun x k h =>
    roundTo_eq_of_mul_intCast 2 x k (by rw [(by norm_num : ((10:ℚ)^2) = 100), h])
  rw [map_price_fallbackFlightsPre]
  rw [hr ((399.0:ℚ) * 1.0) 39900 (by norm_num), hr ((399.0:ℚ) * 1.25) 49875 (by norm_num),
      hr ((399.0:ℚ) * 1.8) 71820 (by norm_num), hr ((399.0:ℚ) * 2.6) 103740 (by norm_num),
      hr ((429.0:ℚ) * 1.0) 42900 (by norm_num), hr ((429.0:ℚ) * 1.25) 53625 (by norm_num),
      hr ((429.0:ℚ) * 1.8) 77220 (by norm_num), hr ((429.0:ℚ) * 2.6) 111540 (by norm_num),
      hr ((475.0:ℚ) * 1.0) 47500 (by norm_num), hr ((475.0:ℚ) * 1.25) 59375 (by norm_num),
      hr ((475.0:ℚ) * 1.8) 85500 (by norm_num), hr ((475.0:ℚ) * 2.6) 123500 (by norm_num),
      hr ((515.0:ℚ) * 1.0) 51500 (by norm_num), hr ((515.0:ℚ) * 1.25) 64375 (by norm_num),
      hr ((515.0:ℚ) * 1.8) 92700 (by norm_num), hr ((515.0:ℚ) * 2.6) 133900 (by norm_num),
      hr ((559.0:ℚ) * 1.0) 55900 (by norm_num), hr ((559.0:ℚ) * 1.25) 69875 (by norm_num),
      hr ((559.0:ℚ) * 1.8) 100620 (by norm_num), hr ((559.0:ℚ) * 2.6) 145340 (by norm_num)]
  norm_num

/-- C7: whenever the flight provider interaction fails (missing
credentials, failed token fetch, or a raised API error), the flight search
returns the synthetic fallback list, which is non-empty and whose prices
are strictly increasing in list order. -/
theorem C7_fallback_flights_sorted (outcome : FlightsApiOutcome)
    (k1 k2 : Option String) (o d : String) (dep : ℤ) (ret : Option ℤ)
    (ho : outcome = .noCredentials ∨ outcome = .noToken ∨ outcome = .apiError) :
    fetchFlightsAmadeus outcome k1 k2 o d dep ret = fallbackFlights k1 k2 o d dep ret ∧
    fetchFlightsAmadeus outcome k1 k2 o d dep ret ≠ [] ∧
    List.Chain' (· < ·)
      ((fetchFlightsAmadeus outcome k1 k2 o d dep ret).map (fun f => f.price)) := by
  have heq : fetchFlightsAmadeus outcome k1 k2 o d dep ret =
      fallbackFlights k1 k2 o d dep ret := by
    rcases ho with rfl | rfl | rfl <;> rfl
  refine ⟨heq, ?_, ?_⟩
  · rw [heq]
    intro hnil
    have hlen : (fallbackFlights k1 k2 o d dep ret).length =
        (fallbackFlightsPre k1 k2 o d dep ret).length :=
      List.length_mergeSort _
    have h20 : (fallbackFlightsPre k1 k2 o d dep ret).length = 20 := by
      have := congrArg List.length (map_price_fallbackFlightsPre k1 k2 o d dep ret)
      simpa using this
    rw [hnil] at hlen
    simp [h20] at hlen
  · rw [heq]
    have htrans : ∀ (a b c : FlightOption),
        (decide (a.price ≤ b.price)) = true → (decide (b.price ≤ c.price)) = true →
        (decide (a.price ≤ c.price)) = true := by
      intro a b c hab hbc
      simp only [decide_eq_true_eq] at hab hbc ⊢
      exact le_trans hab hbc
    have htotal : ∀ (a b : FlightOption),
        ((decide (a.price ≤ b.price)) || (decide (b.price ≤ a.price))) = true := by
      intro a b
      simp only [Bool.or_eq_true, decide_eq_true_eq]
      exact le_total a.price b.price
    have hsorted := List.sorted_mergeSort htrans htotal
      (fallbackFlightsPre k1 k2 o d dep ret)
    have hpw : List.Pairwise (fun a b : FlightOption => a.price ≤ b.price)
        ((fallbackFlightsPre k1 k2 o d dep ret).mergeSort
          (fun a b => decide (a.price ≤ b.price))) :=
      hsorted.imp (fun h => of_decide_eq_true h)
    have hpwQ : List.Pairwise (· ≤ ·)
        ((fallbackFlights k1 k2 o d dep ret).map (fun f => f.price)) := by
      rw [fallbackFlights]
      exact List.pairwise_map.mpr hpw
    have hpermQ : ((fallbackFlights k1 k2 o d dep ret).map (fun f => f.price)).Perm
        ((fallbackFlightsPre k1 k2 o d dep ret).map (fun f => f.price)) :=
      (List.mergeSort_perm _ _).map _
    have hnodupL : ((fallbackFlightsPre k1 k2 o d dep ret).map (fun f => f.price)).Nodup := by
      rw [map_price_fallbackFlightsPre_eval]
      norm_num [List.nodup_cons, List.mem_cons]
    have hnodupS : ((fallbackFlights k1 k2 o d dep ret).map (fun f => f.price)).Nodup :=
      hpermQ.symm.nodup hnodupL
    have hlt : List.Pairwise (· < ·)
        ((fallbackFlights k1 k2 o d dep ret).map (fun f => f.price)) :=
      (hpwQ.and hnodupS).imp (fun h => lt_of_le_of_ne h.1 h.2)
    exact List.chain'_iff_pairwise.mpr hlt

/-- Witness for C7 in the no-credentials scenario on a concrete route. -/
theorem C7_fallback_flights_sorted_witness :
    fetchFlightsAmadeus .noCredentials none none "New York" "Paris" 0 none =
      fallbackFlights none none "New York" "Paris" 0 none ∧
    fetchFlightsAmadeus .noCredentials none none "New York" "Paris" 0 none ≠ [] ∧
    List.Chain' (· < ·)
      ((fetchFlightsAmadeus .noCredentials none none "New York" "Paris" 0 none).map
        (fun f => f.price)) :=
  C7_fallback_flights_sorted .noCredentials none none "New York" "Paris" 0 none
    (Or.inl rfl)

/-! Bounds on the `atan2`-based great-circle distance. -/

theorem arctan_nonneg_of {x : ℝ} (hx : 0 ≤ x) : 0 ≤ Real.arctan x := by
  rw [← Real.arctan_zero]
  exact Real.arctan_strictMono.monotone hx

theorem atan2_nonneg_le {y x : ℝ} (hy : 0 ≤ y) (hx : 0 ≤ x) :
    0 ≤ atan2 y x ∧ atan2 y x ≤ Real.pi / 2 := by
  unfold atan2
  rcases lt_or_eq_of_le hx with hx' | hx'
  · rw [if_pos hx']
    exact ⟨arctan_nonneg_of (by positivity), (Real.arctan_lt_pi_div_two _).le⟩
  · rw [if_neg (by rw [← hx']; exact lt_irrefl 0),
        if_neg (fun h => absurd h.1 (by rw [← hx']; exact lt_irrefl 0)),
        if_neg (fun h => absurd h.1 (by rw [← hx']; exact lt_irrefl 0))]
    rcases lt_or_eq_of_le hy with hy' | hy'
    · rw [if_pos hy']
      exact ⟨by positivity, le_refl _⟩
    · rw [if_neg (by rw [← hy']; exact lt_irrefl 0),
          if_neg (by rw [← hy']; exact lt_irrefl 0)]
      have := Real.pi_pos
      exact ⟨le_refl _, by linarith⟩

theorem atan2_pos_of {y x : ℝ} (hy : 0 < y) (hx : 0 ≤ x) : 0 < atan2 y x := by
  unfold atan2
  rcases lt_or_eq_of_le hx with hx' | hx'
  · rw [if_pos hx']
    rw [← Real.arctan_zero]
    exact Real.arctan_strictMono (by positivity)
  · rw [if_neg (by rw [← hx']; exact lt_irrefl 0),
        if_neg (fun h => absurd h.1 (by rw [← hx']; exact lt_irrefl 0)),
        if_neg (fun h => absurd h.1 (by rw [← hx']; exact lt_irrefl 0)),
        if_pos hy]
    have := Real.pi_pos
    linarith

theorem haversineKm_nonneg (lat1 lon1 lat2 lon2 : ℝ) :
    0 ≤ haversineKm lat1 lon1 lat2 lon2 := by
  simp only [haversineKm]
  set A := Real.sin (radians (lat2 - lat1) / 2) ^ 2 +
    Real.cos (radians lat1) * Real.cos (radians lat2) *
      Real.sin (radians (lon2 - lon1) / 2) ^ 2 with hA
  have h := (atan2_nonneg_le (Real.sqrt_nonneg A) (Real.sqrt_nonneg (1 - A))).1
  nlinarith

theorem haversineKm_le (lat1 lon1 lat2 lon2 : ℝ) :
    haversineKm lat1 lon1 lat2 lon2 ≤ 6371 * Real.pi := by
  simp only [haversineKm]
  set A := Real.sin (radians (lat2 - lat1) / 2) ^ 2 +
    Real.cos (radians lat1) * Real.cos (radians lat2) *
      Real.sin (radians (lon2 - lon1) / 2) ^ 2 with hA
  have h := (atan2_nonneg_le (Real.sqrt_nonneg A) (Real.sqrt_nonneg (1 - A))).2
  nlinarith

/-- The haversine distance is positive as soon as the latitude difference
contributes a positive sine and the latitude cosines are non-negative. -/
theorem haversineKm_pos (lat1 lon1 lat2 lon2 : ℝ)
    (hsin : 0 < Real.sin (radians (lat2 - lat1) / 2))
    (hcos : 0 ≤ Real.cos (radians lat1) * Real.cos (radians lat2)) :
    0 < haversineKm lat1 lon1 lat2 lon2 := by
  simp only [haversineKm]
  set A := Real.sin (radians (lat2 - lat1) / 2) ^ 2 +
    Real.cos (radians lat1) * Real.cos (radians lat2) *
      Real.sin (radians (lon2 - lon1) / 2) ^ 2 with hA
  have hterm : 0 ≤ Real.cos (radians lat1) * Real.cos (radians lat2) *
      (Real.sin (radians (lon2 - lon1) / 2)) ^ 2 := mul_nonneg hcos (sq_nonneg _)
  have ha : 0 < A := by
    rw [hA]
    nlinarith [pow_pos hsin 2]
  have hy : 0 < Real.sqrt A := Real.sqrt_pos.mpr ha
  have hp := atan2_pos_of hy (Real.sqrt_nonneg (1 - A))
  nlinarith

/-- Positive great-circle distance from JFK to CDG. -/
theorem haversine_JFK_CDG_pos :
    0 < haversineKm ((40.6413:ℚ):ℝ) ((-73.7781:ℚ):ℝ) ((49.0097:ℚ):ℝ) ((2.5479:ℚ):ℝ) := by
  have hpi := Real.pi_pos
  apply haversineKm_pos
  · unfold radians
    apply Real.sin_pos_of_pos_of_lt_pi
    · push_cast
      nlinarith
    · push_cast
      nlinarith
  · apply mul_nonneg
    · apply (Real.cos_pos_of_mem_Ioo _).le
      unfold radians
      constructor
      · push_cast
        nlinarith
      · push_cast
        nlinarith
    · apply (Real.cos_pos_of_mem_Ioo _).le
      unfold radians
      constructor
      · push_cast
        nlinarith
      · push_cast
        nlinarith

/-! Branch characterisations of `_total_distance_km`. -/

theorem totalDistanceKm_of_knownSum_pos (segments : List FlightSegment)
    (h : 0 < knownDistanceSum segments) :
    totalDistanceKm segments = knownDistanceSum segments := by
  simp only [totalDistanceKm]
  have hne : knownDistanceSum segments ≠ 0 := ne_of_gt h
  rw [if_neg (show ¬(knownDistanceSum segments = 0 ∧ anyCoordsMissing segments) from
    fun hc => hne hc.1)]
  rw [if_neg hne]

theorem totalDistanceKm_of_zero_no_missing (segments : List FlightSegment)
    (h0 : knownDistanceSum segments = 0) (hnm : ¬ anyCoordsMissing segments) :
    totalDistanceKm segments = 1500 := by
  simp only [totalDistanceKm]
  rw [h0]
  rw [if_neg (show ¬((0:ℝ) = 0 ∧ anyCoordsMissing segments) from fun hc => hnm hc.2)]
  rw [if_pos rfl]

theorem totalDistanceKm_all_unknown (segments : List FlightSegment)
    (hall : ∀ seg ∈ segments, segmentDistanceKm seg = none) (hne : segments ≠ []) :
    totalDistanceKm segments =
      if 0 < durationHours segments then max 500 ((durationHours segments : ℝ) * 800)
      else 1500 := by
  have hzero : knownDistanceSum segments = 0 := by
    unfold knownDistanceSum
    rw [List.map_congr_left (fun seg hs =>
      show (segmentDistanceKm seg).getD 0 = (fun _ => (0:ℝ)) seg by rw [hall seg hs]; rfl)]
    simp
  have hmiss : anyCoordsMissing segments := by
    obtain ⟨s0, hs0⟩ := List.exists_mem_of_ne_nil segments hne
    have h0 := hall s0 hs0
    unfold segmentDistanceKm at h0
    unfold anyCoordsMissing
    refine ⟨s0, hs0, ?_⟩
    cases h1 : getAirportCoords s0.origin with
    | none => exact Or.inl (by simp [h1])
    | some c1 =>
      cases h2 : getAirportCoords s0.destination with
      | none => exact Or.inr (by simp [h2])
      | some c2 =>
        rw [h1, h2] at h0
        simp at h0
  simp only [totalDistanceKm]
  rw [hzero]
  rw [if_pos (show (0:ℝ) = 0 ∧ anyCoordsMissing segments from ⟨rfl, hmiss⟩)]
  split
  · rename_i hdur
    have h500 : (500:ℝ) ≤ max 500 ((durationHours segments : ℝ) * 800) := le_max_left _ _
    rw [if_neg (show ¬(max 500 ((durationHours segments : ℝ) * 800) = (0:ℝ)) from
      by intro hc; rw [hc] at h500; norm_num at h500)]
  · rw [if_pos rfl]

/-- C4 counterexample: a two-segment itinerary whose first segment has
known coordinates (JFK → CDG) while the second does not.  The claim
predicts the duration fallback 100 h × 800 km/h = 80000 km, but the code
keeps the positive haversine sum of the known segment (at most
6371 π < 20069 km), so the claimed fallback does not apply. -/
theorem C4_counterexample :
    anyCoordsMissing [segKnownJfkCdg, segUnknownCoords] ∧
    durationHours [segKnownJfkCdg, segUnknownCoords] = 100 ∧
    totalDistanceKm [segKnownJfkCdg, segUnknownCoords] ≠
      max 500 ((100 : ℝ) * 800) := by
  have hsk : segmentDistanceKm segKnownJfkCdg =
      some (haversineKm ((40.6413:ℚ):ℝ) ((-73.7781:ℚ):ℝ) ((49.0097:ℚ):ℝ) ((2.5479:ℚ):ℝ)) :=
    rfl
  have hsu : segmentDistanceKm segUnknownCoords = none := rfl
  have hsum : knownDistanceSum [segKnownJfkCdg, segUnknownCoords] =
      haversineKm ((40.6413:ℚ):ℝ) ((-73.7781:ℚ):ℝ) ((49.0097:ℚ):ℝ) ((2.5479:ℚ):ℝ) := by
    unfold knownDistanceSum
    rw [List.map_cons, List.map_cons, List.map_nil, hsk, hsu]
    simp
  have hmiss : anyCoordsMissing [segKnownJfkCdg, segUnknownCoords] := by
    unfold anyCoordsMissing
    exact ⟨segUnknownCoords, by simp, Or.inl rfl⟩
  refine ⟨hmiss, ?_, ?_⟩
  · unfold durationHours segKnownJfkCdg segUnknownCoords
    norm_num
  · have htot : totalDistanceKm [segKnownJfkCdg, segUnknownCoords] =
        knownDistanceSum [segKnownJfkCdg, segUnknownCoords] := by
      apply totalDistanceKm_of_knownSum_pos
      rw [hsum]
      exact haversine_JFK_CDG_pos
    rw [htot, hsum]
    have hub := haversineKm_le ((40.6413:ℚ):ℝ) ((-73.7781:ℚ):ℝ) ((49.0097:ℚ):ℝ) ((2.5479:ℚ):ℝ)
    have hpi := Real.pi_lt_d2
    have hm : max (500:ℝ) ((100:ℝ) * 800) = 80000 := by
      rw [max_eq_right] <;> norm_num
    rw [hm]
    intro hcontra
    rw [hcontra] at hub
    nlinarith

/-- C4 amended: the duration heuristic (duration × 800 km/h floored at
500 km, else 1500 km) applies only when no known-coordinate distance
accumulates and at least one segment's coordinates are unknown; whenever
the haversine sum over known segments is positive it is used as-is even if
other segments are unknown; and a zero sum with no missing coordinates
falls back to 1500 km. -/
theorem C4_distance_fallback :
    (∀ segments : List FlightSegment,
      (∀ seg ∈ segments, segmentDistanceKm seg = none) → segments ≠ [] →
      totalDistanceKm segments =
        if 0 < durationHours segments then max 500 ((durationHours segments : ℝ) * 800)
        else 1500) ∧
    (∀ segments : List FlightSegment, 0 < knownDistanceSum segments →
      totalDistanceKm segments = knownDistanceSum segments) ∧
    (∀ segments : List FlightSegment, knownDistanceSum segments = 0 →
      ¬ anyCoordsMissing segments → totalDistanceKm segments = 1500) :=
  ⟨totalDistanceKm_all_unknown, totalDistanceKm_of_knownSum_pos,
   totalDistanceKm_of_zero_no_missing⟩

/-- Witness for the amended C4: a single unknown-coordinates segment takes
the duration formula, a single JFK → CDG segment keeps its haversine sum,
and the empty segment list defaults to 1500 km. -/
theorem C4_distance_fallback_witness :
    totalDistanceKm [segUnknownCoords] =
      (if 0 < durationHours [segUnknownCoords] then
        max 500 ((durationHours [segUnknownCoords] : ℝ) * 800) else 1500) ∧
    totalDistanceKm [segKnownJfkCdg] = knownDistanceSum [segKnownJfkCdg] ∧
    totalDistanceKm [] = 1500 := by
  refine ⟨?_, ?_, ?_⟩
  · apply C4_distance_fallback.1
    · intro seg hs
      rw [List.mem_singleton] at hs
      rw [hs]
      rfl
    · simp
  · apply C4_distance_fallback.2.1
    have hsk : segmentDistanceKm segKnownJfkCdg =
        some (haversineKm ((40.6413:ℚ):ℝ) ((-73.7781:ℚ):ℝ) ((49.0097:ℚ):ℝ) ((2.5479:ℚ):ℝ)) :=
      rfl
    have hsum : knownDistanceSum [segKnownJfkCdg] =
        haversineKm ((40.6413:ℚ):ℝ) ((-73.7781:ℚ):ℝ) ((49.0097:ℚ):ℝ) ((2.5479:ℚ):ℝ) := by
      unfold knownDistanceSum
      rw [List.map_cons, List.map_nil, hsk]
      simp
    rw [hsum]
    exact haversine_JFK_CDG_pos
  · exact C4_distance_fallback.2.2 [] (by simp [knownDistanceSum]) (by simp [anyCoordsMissing])

end Travel
